import Mathlib

/-!
# CORE-Rust-Server: shallow embedding and verification

A shallow embedding of the CORE server's data model and of the handler,
database-adapter and authorization code that the checked claims are about.

Conventions of the embedding:
* The MongoDB document store is modelled as typed per-collection lists held in
  a `Store` record; every adapter function is translated from
  `src/database/mongo_connector.rs` into an explicit state-passing function.
* gRPC `tonic::Status` values are modelled by `GStatus` (an error kind plus the
  literal message built by the source).
* Fresh UUIDs (`uuid::Uuid::new_v4()`) and timestamps (`Utc::now()`) are
  nondeterministic in the source; they are passed in as explicit parameters.
* The OAuth2 userinfo endpoint and the S3 object store are external
  collaborators; they are passed in as function parameters.
-/

namespace Core

/-- The gRPC status codes produced by the modelled code paths
(`tonic::Status::{internal, not_found, unauthenticated, permission_denied, invalid_argument}`). -/
inductive ErrKind where
  | internal
  | notFound
  | unauthenticated
  | permissionDenied
  | invalidArgument
  deriving DecidableEq, Repr

/-- A `tonic::Status` error value: its code and its message string. -/
structure GStatus where
  code : ErrKind
  msg : String
  deriving DecidableEq, Repr

/-- `models::common_models::Right`. -/
inductive Right where
  | Read
  | Write
  deriving DecidableEq, Repr

/-- `models::common_models::Status` (entity lifecycle status). -/
inductive Status where
  | Available
  | Initializing
  | Updating
  | Archived
  | Deleting
  deriving DecidableEq, Repr

/-- `models::common_models::Resource`, the resource kinds `authorize` dispatches on. -/
inductive Resource where
  | Project
  | Dataset
  | DatasetVersion
  | ObjectGroup
  | ObjectGroupRevision
  | Object
  deriving DecidableEq, Repr

/-- `models::common_models::Label`. -/
structure Label where
  key : String
  value : String
  deriving DecidableEq, Repr

/-- `models::common_models::Schema`. -/
inductive Schema where
  | SimpleSchema (s : String)
  deriving DecidableEq, Repr

/-- `models::common_models::Metadata`; the `metadata` byte vector is a list of bytes. -/
structure Metadata where
  key : String
  labels : List Label
  metadata : List Nat
  schema : Option Schema
  deriving DecidableEq, Repr

/-- `models::common_models::VersionStage`. -/
inductive VersionStage where
  | Stable
  | ReleaseCandidate
  | Beta
  | Alpha
  deriving DecidableEq, Repr

/-- `models::common_models::Version`. -/
structure Version where
  major : Int
  minor : Int
  patch : Int
  revision : Int
  version_stage : VersionStage
  deriving DecidableEq, Repr

instance : Inhabited Version := ⟨⟨0, 0, 0, 0, .Alpha⟩⟩

/-- `models::common_models::LocationType`. -/
inductive LocationType where
  | Object
  | Index
  deriving DecidableEq, Repr

/-- `models::common_models::IndexLocation`. -/
structure IndexLocation where
  start_byte : Int
  end_byte : Int
  deriving DecidableEq, Repr

/-- `models::common_models::Location`. -/
structure Location where
  bucket : String
  key : String
  url : String
  location_type : LocationType
  index_location : IndexLocation
  deriving DecidableEq, Repr

/-- `models::common_models::OriginType`. -/
inductive OriginType where
  | ObjectStorage
  | ObjectLink
  deriving DecidableEq, Repr

/-- `models::common_models::Origin`. -/
structure Origin where
  link : String
  location : Location
  origin_type : OriginType
  deriving DecidableEq, Repr

/-- `Origin::default()`. -/
def Origin.default : Origin :=
  ⟨"", ⟨"", "", "", .Object, ⟨0, 0⟩⟩, .ObjectStorage⟩

/-- `models::common_models::User`: a project membership entry. -/
structure User where
  user_id : String
  rights : List Right
  deriving DecidableEq, Repr

/-- `models::project_model::ProjectEntry`. -/
structure ProjectEntry where
  id : String
  description : String
  users : List User
  name : String
  labels : List Label
  metadata : List Metadata
  deriving DecidableEq, Repr

/-- `models::dataset_model::DatasetEntry`; `created` is an opaque UTC instant. -/
structure DatasetEntry where
  id : String
  name : String
  description : String
  is_public : Bool
  created : Nat
  status : Status
  project_id : String
  labels : List Label
  metadata : List Metadata
  deriving DecidableEq, Repr

/-- `models::dataset_object_group::ObjectGroup`. -/
structure ObjectGroup where
  id : String
  name : String
  dataset_id : String
  labels : List Label
  metadata : List Metadata
  status : Status
  head_id : String
  revision_counter : Int
  deriving DecidableEq, Repr

/-- `models::dataset_object_group::DatasetObject` (an Object embedded in a revision). -/
structure DatasetObject where
  id : String
  filename : String
  filetype : String
  origin : Origin
  content_len : Int
  location : Location
  created : Option Nat
  metadata : List Metadata
  upload_id : String
  deriving DecidableEq, Repr

/-- `models::dataset_object_group::ObjectGroupRevision`.
The dataset-id field is spelled `datasete_id` in the source. -/
structure ObjectGroupRevision where
  id : String
  datasete_id : String
  object_group_id : String
  date_create : Option Nat
  labels : List Label
  metadata : List Metadata
  objects_count : Int
  objects : List DatasetObject
  version : Version
  revision : Int
  dataset_versions : List String
  status : Status
  deriving DecidableEq, Repr

/-- `models::dataset_version::DatasetVersion`. -/
structure DatasetVersion where
  id : String
  dataset_id : String
  description : String
  labels : List Label
  metadata : List Metadata
  created : Nat
  version : Version
  object_group_ids : List String
  object_count : Int
  status : Status
  deriving DecidableEq, Repr

/-- `models::apitoken::APIToken`. -/
structure APIToken where
  id : String
  user_id : String
  token : String
  rights : List Right
  project_id : String
  deriving DecidableEq, Repr

/-- The document database: one list per collection
(collections `project`, `Dataset`, `ObjectGroup`, `ObjectGroupRevision`,
`DatasetVersion`, `APIToken`). List order models MongoDB natural order:
`find`/`update_one`/`find_one_and_update` scan it front to back. -/
structure Store where
  projects : List ProjectEntry
  datasets : List DatasetEntry
  objectGroups : List ObjectGroup
  revisions : List ObjectGroupRevision
  datasetVersions : List DatasetVersion
  apiTokens : List APIToken
  deriving DecidableEq, Repr

namespace Mongo

/-- `find_one`: the first document matching the filter, in natural order. -/
def findOne? (p : α → Bool) (l : List α) : Option α :=
  l.find? p

/-- `update_one`: apply the update to the first matching document only. -/
def updateOne (p : α → Bool) (f : α → α) : List α → List α
  | [] => []
  | a :: as => if p a then f a :: as else a :: updateOne p f as

/-- `update_many`: apply the update to every matching document. -/
def updateMany (p : α → Bool) (f : α → α) (l : List α) : List α :=
  l.map fun a => if p a then f a else a

/-- `find_one_and_update` called with options `None`: the update is applied to
the first matching document, and the document is returned **as it was before
the update** (the driver's `return_document` defaults to `Before`, i.e. server
`findAndModify` with `new: false`). Returns `none` when nothing matches. -/
def findOneAndUpdate (p : α → Bool) (f : α → α) : List α → Option (α × List α)
  | [] => none
  | a :: as =>
    if p a then some (a, f a :: as)
    else (findOneAndUpdate p f as).map fun pr => (pr.1, a :: pr.2)

/-- `delete_one`: remove the first matching document. -/
def deleteOne (p : α → Bool) : List α → List α
  | [] => []
  | a :: as => if p a then as else a :: deleteOne p as

/-- `$addToSet`: append the value unless an equal element is already present. -/
def addToSet [BEq α] (l : List α) (a : α) : List α :=
  if l.contains a then l else l ++ [a]

end Mongo

namespace MongoHandler

/-- `mongo_connector.rs::find_one_by_key::<T>`: the first document matching the
query, or a `not_found` status naming the collection when nothing matches
(adapter transport failures are outside the model). -/
def find_one_by_key (modelName : String) (p : α → Bool) (l : List α) :
    Except GStatus α :=
  match Mongo.findOne? p l with
  | some v => .ok v
  | none =>
    .error ⟨.notFound, "could not find requested document. type: " ++ modelName⟩

/-- `mongo_connector.rs::update_on_field::<T>` (the find-and-update adapter
operation): `find_one_and_update(query, update, None)`. When a document
matches, the match is returned as it was **before** the update while the store
holds the updated document; when nothing matches the adapter fails with the
`internal` kind. The state-passing result pairs the returned entity with the
updated collection. -/
def update_on_field (p : α → Bool) (f : α → α) (l : List α) :
    Except GStatus (α × List α) :=
  match Mongo.findOneAndUpdate p f l with
  | some pr => .ok pr
  | none => .error ⟨.internal, "could not find value during update"⟩

/-- `mongo_connector.rs::find_object`: finds the revision containing an
embedded object with the given id, using the positional projection
`objects.$`, which yields exactly the first embedded object whose id matches
the filter. No match is reported with the `internal` kind. -/
def find_object (s : Store) (id : String) : Except GStatus DatasetObject :=
  match s.revisions.find? (fun r => r.objects.any fun o => o.id == id) with
  | none => .error ⟨.internal, "could not find requested dataset object"⟩
  | some r =>
    match r.objects.find? (fun o => o.id == id) with
    | some o => .ok o
    | none => .error ⟨.internal, "could not read requested dataset object"⟩

/-- The wire request for AddUserToProject. The source reads only
`project_id` and `user_id` from it; the `rights` field models whatever rights a
caller may supply, which `add_user` never reads. -/
structure AddUserToProjectRequest where
  user_id : String
  project_id : String
  rights : List Right
  deriving DecidableEq, Repr

/-- `mongo_connector.rs::add_user`: `update_one` on the `project` collection
with filter `{id: request.project_id}` and update
`{$addToSet: {users: {user_id: request.user_id, rights: [Read, Write]}}}`.
The rights are the literal `vec![Right::Read, Right::Write]`; nothing from the
request beyond `project_id` and `user_id` is consulted. -/
def add_user (s : Store) (request : AddUserToProjectRequest) : Store :=
  let user : User := ⟨request.user_id, [.Read, .Write]⟩
  { s with
    projects :=
      Mongo.updateOne (fun p => p.id == request.project_id)
        (fun p => { p with users := Mongo.addToSet p.users user }) s.projects }

end MongoHandler

/-! ## Identity and authorization (`src/auth/project_authorization_handler.rs`) -/

/-- The request metadata map, restricted to the two authentication entries the
handler reads: `AccessToken` (`USER_TOKEN_ENTRY_KEY`) and `API_TOKEN`
(`API_TOKEN_ENTRY_KEY`). `none` models an absent entry. -/
structure MetadataMap where
  accessToken : Option String
  apiToken : Option String
  deriving DecidableEq, Repr

/-- The OAuth2 userinfo endpoint (`oauth2_handler::parse_user_id_from_token`):
an external collaborator mapping a bearer token to the `sub` claim, `none` on
any failure. -/
def OAuth2Endpoint := String → Option String

namespace Authz

/-- The message of the unauthenticated status built when neither token entry is
present (the `format!` in the source expanded at its arguments). -/
def noTokenMsg : String :=
  "could not find authentication token, please provide a token in metadata either with AccessToken or API_TOKEN"

/-- `project_id_of_dataset`: `find_one` the Dataset by id and return its
`project_id`; the `?` propagates the adapter's status unchanged. -/
def project_id_of_dataset (s : Store) (id : String) : Except GStatus String :=
  match MongoHandler.find_one_by_key "Dataset" (fun d => d.id == id) s.datasets with
  | .error e => .error e
  | .ok dataset => .ok dataset.project_id

/-- `project_id_of_object_group`: `find_one` the ObjectGroup by id, then
resolve a Dataset — the source passes `dataset_group.id` (the group's **own**
id), not `dataset_group.dataset_id`, to `project_id_of_dataset`. -/
def project_id_of_object_group (s : Store) (id : String) : Except GStatus String :=
  match MongoHandler.find_one_by_key "ObjectGroup" (fun g => g.id == id) s.objectGroups with
  | .error e => .error e
  | .ok dataset_group => project_id_of_dataset s dataset_group.id

/-- `project_id_of_object`: the source queries the **ObjectGroupRevision**
collection with `{id: <object id>}` (the revision's own id field, not
`objects.id`), then passes the found revision's **own** id (`dataset_group.id`,
not `datasete_id`) to `project_id_of_dataset`. -/
def project_id_of_object (s : Store) (id : String) : Except GStatus String :=
  match MongoHandler.find_one_by_key "ObjectGroupRevision" (fun r => r.id == id) s.revisions with
  | .error e => .error e
  | .ok dataset_group => project_id_of_dataset s dataset_group.id

/-- `project_id_of_dataset_version`: resolve the DatasetVersion by id, then its
`dataset_id` through `project_id_of_dataset`. -/
def project_id_of_dataset_version (s : Store) (id : String) : Except GStatus String :=
  match MongoHandler.find_one_by_key "DatasetVersion" (fun v => v.id == id) s.datasetVersions with
  | .error e => .error e
  | .ok dataset_version => project_id_of_dataset s dataset_version.dataset_id

/-- `project_id_of_object_group_revision`: resolve the revision by id, then its
`datasete_id` through `project_id_of_dataset`. -/
def project_id_of_object_group_revision (s : Store) (id : String) :
    Except GStatus String :=
  match MongoHandler.find_one_by_key "ObjectGroupRevision" (fun r => r.id == id) s.revisions with
  | .error e => .error e
  | .ok object_groups_version => project_id_of_dataset s object_groups_version.datasete_id

/-- `user_id_from_access_token`: read the `AccessToken` metadata entry and ask
the userinfo endpoint; both failure paths produce an `internal` status. -/
def user_id_from_access_token (oauth : OAuth2Endpoint) (m : MetadataMap) :
    Except GStatus String :=
  match m.accessToken with
  | none => .error ⟨.internal, "could not get user_id_from access token"⟩
  | some access_token =>
    match oauth access_token with
    | some user_id => .ok user_id
    | none => .error ⟨.internal, "could not get user_id_from access token"⟩

/-- `user_id_from_api_token`: read the `API_TOKEN` metadata entry, look the
token up in the `APIToken` collection and return its `user_id`; a failed
lookup is `unauthenticated`. -/
def user_id_from_api_token (s : Store) (m : MetadataMap) : Except GStatus String :=
  match m.apiToken with
  | none => .error ⟨.internal, "could not read API token"⟩
  | some api_token =>
    match MongoHandler.find_one_by_key "APIToken" (fun t => t.token == api_token) s.apiTokens with
    | .ok db_token => .ok db_token.user_id
    | .error _ => .error ⟨.unauthenticated, "could not authenticate from api_token"⟩

/-- `AuthHandler::user_id` for `ProjectAuthzHandler`: the `AccessToken` entry
is consulted first, then `API_TOKEN`; with neither present the call is
`unauthenticated`. -/
def user_id (oauth : OAuth2Endpoint) (s : Store) (m : MetadataMap) :
    Except GStatus String :=
  if m.accessToken.isSome then user_id_from_access_token oauth m
  else if m.apiToken.isSome then user_id_from_api_token s m
  else .error ⟨.unauthenticated, noTokenMsg⟩

/-- `authorize_from_user_token(id, metadata, right)`: load a **Project** by the
`id` argument (any lookup failure becomes `internal`), resolve the caller's
user id, then scan the project's `users` for an entry with that `user_id`
whose `rights` contain the requested right. -/
def authorize_from_user_token (oauth : OAuth2Endpoint) (s : Store) (id : String)
    (m : MetadataMap) (right : Right) : Except GStatus Unit :=
  match MongoHandler.find_one_by_key "project" (fun p => p.id == id) s.projects with
  | .error _ => .error ⟨.internal, "could not authorize requested action"⟩
  | .ok project =>
    match user_id oauth s m with
    | .error e => .error e
    | .ok uid =>
      if project.users.any (fun u => u.user_id == uid && u.rights.any (· == right)) then
        .ok ()
      else
        .error ⟨.permissionDenied, "could not authorize requested action"⟩

/-- `AuthHandler::project_id_from_api_token`: read `API_TOKEN` and look up the
APIToken document; a failed lookup is `unauthenticated`. -/
def project_id_from_api_token (s : Store) (m : MetadataMap) :
    Except GStatus APIToken :=
  match m.apiToken with
  | none => .error ⟨.unauthenticated, "could not find token API_TOKEN"⟩
  | some token =>
    match MongoHandler.find_one_by_key "APIToken" (fun t => t.token == token) s.apiTokens with
    | .ok db_token => .ok db_token
    | .error _ => .error ⟨.unauthenticated, "could not authenticate from api_token"⟩

/-- `authorize_from_api_token`: require the token's `project_id` to equal the
resolved project id and the token's rights to cover every requested right. -/
def authorize_from_api_token (s : Store) (m : MetadataMap) (project_id : String)
    (requested_rights : List Right) : Except GStatus Unit :=
  match project_id_from_api_token s m with
  | .error e => .error e
  | .ok db_token =>
    if db_token.project_id != project_id then
      .error ⟨.permissionDenied, "could not authorize for requested project"⟩
    else if requested_rights.all (fun r => db_token.rights.contains r) then
      .ok ()
    else
      .error ⟨.permissionDenied, "could not authorize for request project"⟩

/-- The resource → owning-project dispatch at the head of `authorize`
(`project_id_result`). -/
def resolve_project_id (s : Store) (resource : Resource) (id : String) :
    Except GStatus String :=
  match resource with
  | .Project => .ok id
  | .Dataset => project_id_of_dataset s id
  | .DatasetVersion => project_id_of_dataset_version s id
  | .ObjectGroup => project_id_of_object_group s id
  | .Object => project_id_of_object s id
  | .ObjectGroupRevision => project_id_of_object_group_revision s id

/-- `AuthHandler::authorize` for `ProjectAuthzHandler`: resolve the owning
project (any resolution error is converted to `unauthenticated`), then branch
on the metadata: with `AccessToken` present, `authorize_from_user_token` is
called **with the original resource id**; otherwise with `API_TOKEN` present,
`authorize_from_api_token` gets the resolved project id; with neither the call
is `unauthenticated`. -/
def authorize (oauth : OAuth2Endpoint) (s : Store) (m : MetadataMap)
    (resource : Resource) (right : Right) (id : String) : Except GStatus Unit :=
  match resolve_project_id s resource id with
  | .error _ => .error ⟨.unauthenticated, "could not authorize requested action"⟩
  | .ok project_id =>
    let requested_rights := [right]
    if m.accessToken.isSome then
      authorize_from_user_token oauth s id m right
    else if m.apiToken.isSome then
      authorize_from_api_token s m project_id requested_rights
    else
      .error ⟨.unauthenticated, noTokenMsg⟩

end Authz

/-! ## Wire requests and model constructors (`src/models/*.rs`) -/

/-- Proto `Metadata` as carried by create requests (no schema field; the
conversion `to_metadata` fills `schema` with the default `None`). -/
structure ProtoMetadata where
  key : String
  labels : List Label
  metadata : List Nat
  deriving DecidableEq, Repr

/-- `common_models::to_labels`. -/
def to_labels (proto_labels : List Label) : List Label :=
  proto_labels.map fun proto_label => ⟨proto_label.key, proto_label.value⟩

/-- `common_models::to_metadata`. -/
def to_metadata (proto_metadata : List ProtoMetadata) : List Metadata :=
  proto_metadata.map fun entry => ⟨entry.key, to_labels entry.labels, entry.metadata, none⟩

/-- Proto `Version` as carried by `ReleaseDatasetVersionRequest`. -/
structure ProtoVersion where
  major : Int
  minor : Int
  patch : Int
  revision : Int
  deriving DecidableEq, Repr

/-- `common_models::to_version`: the stage is always set to `Stable`. -/
def to_version (version : ProtoVersion) : Version :=
  ⟨version.major, version.minor, version.patch, version.revision, .Stable⟩

/-- `services::v1::CreateProjectRequest`. -/
structure CreateProjectRequest where
  name : String
  description : String
  labels : List Label
  metadata : List ProtoMetadata
  deriving DecidableEq, Repr

/-- `services::v1::CreateObjectGroupRequest`. -/
structure CreateObjectGroupRequest where
  name : String
  dataset_id : String
  labels : List Label
  metadata : List ProtoMetadata
  deriving DecidableEq, Repr

/-- `services::v1::CreateObjectRequest`. -/
structure CreateObjectRequest where
  filename : String
  filetype : String
  content_len : Int
  metadata : List ProtoMetadata
  deriving DecidableEq, Repr

/-- `services::v1::CreateObjectGroupRevisionRequest`. -/
structure CreateObjectGroupRevisionRequest where
  objects : List CreateObjectRequest
  labels : List Label
  metadata : List ProtoMetadata
  deriving DecidableEq, Repr

/-- `services::v1::ReleaseDatasetVersionRequest`. The proto carries both the
`object_group_ids` list (read by `DatasetVersion::new_from_proto_create`) and
the `revision_ids` list (chunked by `create_datatset_version`). -/
structure ReleaseDatasetVersionRequest where
  dataset_id : String
  labels : List Label
  metadata : List ProtoMetadata
  object_group_ids : List String
  revision_ids : List String
  version : Option ProtoVersion
  deriving DecidableEq, Repr

/-- `ProjectEntry::new_from_proto_create`: the creating user is recorded with
the literal rights `vec![Right::Write, Right::Read]`. The fresh UUID is the
`uuid` parameter. -/
def ProjectEntry.new_from_proto_create (request : CreateProjectRequest)
    (user_id : String) (uuid : String) : ProjectEntry :=
  let user : User := ⟨user_id, [.Write, .Read]⟩
  { id := uuid
    name := request.name
    description := request.description
    metadata := to_metadata request.metadata
    users := [user]
    labels := to_labels request.labels }

/-- `ObjectGroup::new_from_proto_create`: status `Initializing`,
`revision_counter = 0`, `head_id` defaulted to the empty string. -/
def ObjectGroup.new_from_proto_create (request : CreateObjectGroupRequest)
    (uuid : String) : ObjectGroup :=
  { id := uuid
    name := request.name
    labels := to_labels request.labels
    dataset_id := request.dataset_id
    status := .Initializing
    metadata := to_metadata request.metadata
    revision_counter := 0
    head_id := "" }

/-- `DatasetObject::new_from_proto_create`: object key
`{dataset_id}/{uuid}/{filename}`, empty `upload_id`. -/
def DatasetObject.new_from_proto_create (request : CreateObjectRequest)
    (dataset_id : String) (bucket : String) (uuid : String) (now : Nat) :
    DatasetObject :=
  let object_key := dataset_id ++ "/" ++ uuid ++ "/" ++ request.filename
  { id := uuid
    filename := request.filename
    filetype := request.filetype
    origin := Origin.default
    content_len := request.content_len
    location :=
      { bucket := bucket
        key := object_key
        index_location := ⟨0, 0⟩
        location_type := .Object
        url := "" }
    created := some now
    upload_id := ""
    metadata := to_metadata request.metadata }

/-- `ObjectGroupRevision::new_from_proto_create`: embedded objects get fresh
UUIDs (`objUuid i` for the i-th object of the request) and the revision number
is `object_group.revision_counter` — the counter field of the `ObjectGroup`
value handed in by the caller. -/
def ObjectGroupRevision.new_from_proto_create
    (request : CreateObjectGroupRevisionRequest) (object_group : ObjectGroup)
    (bucket : String) (uuid : String) (objUuid : Nat → String) (now : Nat) :
    ObjectGroupRevision :=
  let objects :=
    (request.objects.enum).map fun pr =>
      DatasetObject.new_from_proto_create pr.2 object_group.dataset_id bucket
        (objUuid pr.1) now
  { status := .Initializing
    id := uuid
    labels := to_labels request.labels
    metadata := to_metadata request.metadata
    datasete_id := object_group.dataset_id
    date_create := some now
    objects := objects
    objects_count := objects.length
    object_group_id := object_group.id
    version := default
    revision := object_group.revision_counter
    dataset_versions := [] }

/-- `DatasetVersion::new_from_proto_create`: `object_group_ids` and
`object_count` come from the request's `object_group_ids` field; status
`Available`. `request.version.unwrap()` panics when the version sub-message is
absent, modelled by `none`. -/
def DatasetVersion.new_from_proto_create (request : ReleaseDatasetVersionRequest)
    (uuid : String) (now : Nat) : Option DatasetVersion :=
  match request.version with
  | none => none
  | some v =>
    some
      { id := uuid
        dataset_id := request.dataset_id
        description := ""
        created := now
        labels := to_labels request.labels
        metadata := to_metadata request.metadata
        object_count := request.object_group_ids.length
        object_group_ids := request.object_group_ids
        status := .Available
        version := to_version v }

/-! ## Create handler (`src/handler/create.rs`) -/

namespace CreateHandler

/-- `create_revision_for_group`: find-and-update the ObjectGroup by id with
`{$inc: {revision_counter: 1}}` through the adapter's `update_on_field`
(which yields the matched group as it was before the increment), build the
revision from the returned group, and insert it. -/
def create_revision_for_group (s : Store)
    (revision_request : CreateObjectGroupRevisionRequest)
    (parent_object_group_id : String) (bucket : String) (uuid : String)
    (objUuid : Nat → String) (now : Nat) :
    Except GStatus (ObjectGroupRevision × Store) :=
  match MongoHandler.update_on_field (fun g => g.id == parent_object_group_id)
      (fun g => { g with revision_counter := g.revision_counter + 1 })
      s.objectGroups with
  | .error e => .error e
  | .ok (object_group, groups') =>
    let revision_entry :=
      ObjectGroupRevision.new_from_proto_create revision_request object_group
        bucket uuid objUuid now
    let s' := { s with objectGroups := groups',
                       revisions := s.revisions ++ [revision_entry] }
    .ok (revision_entry, s')

/-- `create_datatset_version`: insert the DatasetVersion, then for each chunk
of 1000 ids of `request.revision_ids` issue one `update_field`
(`update_one`) with `{id: {$in: chunk}}` and
`{$addToSet: {dataset_versions: <version id>}}`. The concurrent chunk updates
commute (each touches the first store document matching its own id-chunk with
an idempotent `$addToSet` of the same value), so they are folded in chunk
order. `none` models the panic on a missing `version` sub-message. -/
def create_datatset_version (s : Store)
    (version_request : ReleaseDatasetVersionRequest) (uuid : String)
    (now : Nat) : Option (DatasetVersion × Store) :=
  match DatasetVersion.new_from_proto_create version_request uuid now with
  | none => none
  | some dataset_version_entry =>
    let s₁ := { s with datasetVersions := s.datasetVersions ++ [dataset_version_entry] }
    let s₂ :=
      (version_request.revision_ids.toChunks 1000).foldl
        (fun st chunk =>
          { st with
            revisions :=
              Mongo.updateOne (fun r => chunk.contains r.id)
                (fun r =>
                  { r with
                    dataset_versions :=
                      Mongo.addToSet r.dataset_versions dataset_version_entry.id })
                st.revisions })
        s₁
    some (dataset_version_entry, s₂)

end CreateHandler

/-! ## Delete handler (`src/handler/delete.rs`) -/

/-- Structural decidable equality for `Except` results. -/
instance {ε α : Type} [DecidableEq ε] [DecidableEq α] : DecidableEq (Except ε α) :=
  fun a b =>
    match a, b with
    | .ok x, .ok y =>
      if h : x = y then .isTrue (by rw [h]) else .isFalse (by intro hc; cases hc; exact h rfl)
    | .error x, .error y =>
      if h : x = y then .isTrue (by rw [h]) else .isFalse (by intro hc; cases hc; exact h rfl)
    | .ok _, .error _ => .isFalse (by intro hc; cases hc)
    | .error _, .ok _ => .isFalse (by intro hc; cases hc)

namespace DeleteHandler

/-- `UpdateHandler::update_status` specialised to the revision collection:
`update_field` (`update_one`) with `{id: <id>}` and `{$set: {status: <st>}}`. -/
def update_status_revision (s : Store) (id : String) (st : Status) : Store :=
  { s with
    revisions :=
      Mongo.updateOne (fun r => r.id == id) (fun r => { r with status := st })
        s.revisions }

/-- The observable outcome of a delete handler call: the gRPC result, the
resulting metadata store, and the object-store locations whose blobs were
deleted. -/
structure DeleteOutcome where
  result : Except GStatus Unit
  store : Store
  deletedBlobs : List Location
  deriving DecidableEq, Repr

/-- `delete_object_revision`: **first** set the revision's status to
`Deleting`, then read it back; reject with `invalid-argument` when
`dataset_versions` is non-empty; otherwise delete every embedded object's blob
and remove the revision document. -/
def delete_object_revision (s : Store) (id : String) : DeleteOutcome :=
  let s₁ := update_status_revision s id .Deleting
  match MongoHandler.find_one_by_key "ObjectGroupRevision" (fun r => r.id == id)
      s₁.revisions with
  | .error e => ⟨.error e, s₁, []⟩
  | .ok object_revision =>
    if object_revision.dataset_versions.length != 0 then
      ⟨.error ⟨.invalidArgument,
          "object group revision could not be deleted, still has associated versions"⟩,
        s₁, []⟩
    else
      let deleted := object_revision.objects.map (·.location)
      let s₂ := { s₁ with revisions := Mongo.deleteOne (fun r => r.id == id) s₁.revisions }
      ⟨.ok (), s₂, deleted⟩

end DeleteHandler

/-! ## Load handler (`src/handler/load.rs`) -/

namespace LoadHandler

/-- The value a mongo update document assigns to a field: either a bare
string or an embedded-object document. -/
inductive MongoValue where
  | str (s : String)
  | objectDoc (o : DatasetObject)
  deriving DecidableEq, Repr

/-- The update request issued by `init_multipart_upload`: filter
`{objects.id: <id>}` together with the value assigned to the positional key
`objects.$`. -/
structure IssuedUpdate where
  queryObjectsId : String
  updateObjectsPositional : MongoValue
  deriving DecidableEq, Repr

/-- `init_multipart_upload`: look the object up, obtain an upload id from the
object store, then issue `update_field` with filter `{objects.id: object.id}`
and update document `{objects.$: <upload id>}` — the **bare upload-id
string** is assigned to the positional element, with no `$set` and no object
document. The function returns `object.clone()`: the object **as read before
the update**, its `upload_id` field untouched. -/
def init_multipart_upload (s : Store) (multipartInit : DatasetObject → String)
    (id : String) : Except GStatus (DatasetObject × IssuedUpdate) :=
  match MongoHandler.find_object s id with
  | .error e => .error e
  | .ok object =>
    let upload_id := multipartInit object
    .ok (object, ⟨object.id, .str upload_id⟩)

end LoadHandler

/-! ## Reference resolution per the specification's table

Used only to compare the code's resolution against the documented table; the
executable authority for every claim remains the definitions above. -/

namespace SpecTable

/-- Modelled from the spec: resolution-table row "ObjectGroup → resolve via
dataset_id → Dataset → project_id". -/
def resolutionObjectGroup (s : Store) (id : String) : Option String := do
  let g ← s.objectGroups.find? (fun g => g.id == id)
  let d ← s.datasets.find? (fun d => d.id == g.dataset_id)
  pure d.project_id

/-- Modelled from the spec: resolution-table row "Object → find Revision
containing objects.id == id, then its dataset_id → Dataset → project_id". -/
def resolutionObject (s : Store) (id : String) : Option String := do
  let r ← s.revisions.find? (fun r => r.objects.any fun o => o.id == id)
  let d ← s.datasets.find? (fun d => d.id == r.datasete_id)
  pure d.project_id

end SpecTable

/-! ## Concrete fixtures

A small consistent hierarchy: project `p1` (member `u1` with Read and Write)
owning dataset `d1`, which owns object group `g1`, which owns revision `r1`
embedding object `o1`. All ids are distinct, as UUIDs are. -/

namespace Fixtures

def userU1 : User := ⟨"u1", [.Read, .Write]⟩

def projectP : ProjectEntry :=
  { id := "p1", description := "", users := [userU1], name := "testproject"
    labels := [], metadata := [] }

def datasetD : DatasetEntry :=
  { id := "d1", name := "testdataset", description := "", is_public := false
    created := 0, status := .Available, project_id := "p1", labels := []
    metadata := [] }

def groupG : ObjectGroup :=
  { id := "g1", name := "testgroup", dataset_id := "d1", labels := []
    metadata := [], status := .Initializing, head_id := ""
    revision_counter := 0 }

def locationO : Location := ⟨"testbucket", "d1/o1/a.txt", "", .Object, ⟨0, 0⟩⟩

def objectO : DatasetObject :=
  { id := "o1", filename := "a.txt", filetype := "txt"
    origin := Origin.default, content_len := 8, location := locationO
    created := some 0, metadata := [], upload_id := "" }

def revisionR : ObjectGroupRevision :=
  { id := "r1", datasete_id := "d1", object_group_id := "g1"
    date_create := some 0, labels := [], metadata := [], objects_count := 1
    objects := [objectO], version := default, revision := 0
    dataset_versions := [], status := .Initializing }

def baseStore : Store :=
  { projects := [projectP], datasets := [datasetD], objectGroups := [groupG]
    revisions := [revisionR], datasetVersions := [], apiTokens := [] }

/-- A userinfo endpoint accepting the bearer token `token-1` for `u1`. -/
def oauthEx : OAuth2Endpoint := fun tok => if tok == "token-1" then some "u1" else none

/-- Metadata carrying only the `AccessToken` entry. -/
def mdAccess : MetadataMap := ⟨some "token-1", none⟩

/-- A second revision `r2` of the same group, used by the release fixtures. -/
def revisionR2 : ObjectGroupRevision := { revisionR with id := "r2", revision := 1 }

/-- Store for the release scenario: two unreleased revisions `r1`, `r2` of
group `g1`, whose counter has accordingly reached 2. -/
def releaseStore : Store :=
  { baseStore with
    revisions := [revisionR, revisionR2]
    objectGroups := [{ groupG with revision_counter := 2 }] }

/-- `ReleaseDatasetVersionRequest` freezing `r1` and `r2`. -/
def releaseReq : ReleaseDatasetVersionRequest :=
  { dataset_id := "d1", labels := [], metadata := []
    object_group_ids := ["r1", "r2"], revision_ids := ["r1", "r2"]
    version := some ⟨1, 0, 0, 0⟩ }

/-- A released revision: `r1` already frozen by dataset version `v1`. -/
def revisionReleased : ObjectGroupRevision := { revisionR with dataset_versions := ["v1"] }

/-- The dataset version `v1` freezing revision `r1`. -/
def versionV1 : DatasetVersion :=
  { id := "v1", dataset_id := "d1", description := "", labels := []
    metadata := [], created := 7, version := default
    object_group_ids := ["r1"], object_count := 1, status := .Available }

/-- Store in which `r1` is referenced by dataset version `v1`. -/
def releasedStore : Store :=
  { baseStore with revisions := [revisionReleased], datasetVersions := [versionV1] }

end Fixtures

/-! ## Helper lemmas about the adapter operations -/

/-- `find_one_and_update` decomposed: it returns exactly the document
`find_one` would return (the pre-update image) together with the collection
`update_one` would produce. -/
theorem findOneAndUpdate_eq {α : Type} (p : α → Bool) (f : α → α) (l : List α) :
    Mongo.findOneAndUpdate p f l
      = (l.find? p).map fun a => (a, Mongo.updateOne p f l) := by
  induction l with
  | nil => rfl
  | cons a as ih =>
    by_cases hpa : p a
    · simp [Mongo.findOneAndUpdate, Mongo.updateOne, List.find?_cons_of_pos _ hpa, hpa]
    · cases h : as.find? p with
      | none =>
        simp [Mongo.findOneAndUpdate, Mongo.updateOne, hpa, ih, h,
          List.find?_cons_of_neg _ hpa]
      | some a' =>
        simp [Mongo.findOneAndUpdate, Mongo.updateOne, hpa, ih, h,
          List.find?_cons_of_neg _ hpa]

/-- After `update_one`, `find_one` with the same filter sees the updated
document, provided the update keeps the document matching. -/
theorem find?_updateOne {α : Type} (p : α → Bool) (f : α → α) (l : List α) (a : α)
    (h : l.find? p = some a) (hf : p (f a) = true) :
    (Mongo.updateOne p f l).find? p = some (f a) := by
  induction l with
  | nil => simp at h
  | cons b bs ih =>
    by_cases hpb : p b
    · rw [List.find?_cons_of_pos _ hpb] at h
      cases h
      simp [Mongo.updateOne, hpb, List.find?_cons_of_pos _ hf]
    · rw [List.find?_cons_of_neg _ hpb] at h
      simp [Mongo.updateOne, hpb, List.find?_cons_of_neg _ hpb, ih h]

/-- `update_one` never adds or removes documents. -/
theorem length_updateOne {α : Type} (p : α → Bool) (f : α → α) (l : List α) :
    (Mongo.updateOne p f l).length = l.length := by
  induction l with
  | nil => rfl
  | cons b bs ih =>
    by_cases hpb : p b <;> simp [Mongo.updateOne, hpb, ih]

/-- What one append does when the parent group is found: the `$inc`
find-and-update returns the group's pre-increment image, the revision is built
from it, and both collections are updated accordingly. -/
theorem create_revision_for_group_eq (s : Store)
    (req : CreateObjectGroupRevisionRequest) (gid bucket uuid : String)
    (objUuid : Nat → String) (now : Nat) (g : ObjectGroup)
    (hfind : s.objectGroups.find? (fun x => x.id == gid) = some g) :
    CreateHandler.create_revision_for_group s req gid bucket uuid objUuid now
      = .ok (ObjectGroupRevision.new_from_proto_create req g bucket uuid objUuid now,
          { s with
            objectGroups :=
              Mongo.updateOne (fun x => x.id == gid)
                (fun x => { x with revision_counter := x.revision_counter + 1 })
                s.objectGroups
            revisions := s.revisions
              ++ [ObjectGroupRevision.new_from_proto_create req g bucket uuid objUuid now] }) := by
  unfold CreateHandler.create_revision_for_group MongoHandler.update_on_field
  rw [findOneAndUpdate_eq, hfind]
  rfl

/-! ## Claims -/

/-- C1: the claim says `authorize` resolves an ObjectGroup id via the group's
`dataset_id` to its Dataset and then to `project_id`, and an Object id via the
revision whose embedded `objects` list contains the id. The code does neither:
`project_id_of_object_group` passes the group's **own id** to
`project_id_of_dataset`, and `project_id_of_object` queries the revision
collection by the revision's own `id` field with the Object id and then also
passes the found revision's own id onward. On the consistent fixture hierarchy
(group `g1` in dataset `d1` of project `p1`; object `o1` in revision `r1`)
both code paths fail with not-found, while the spec's resolution table yields
`p1` for both. -/
theorem C1_resolution_diverges_from_table :
    Authz.project_id_of_object_group Fixtures.baseStore "g1"
        = .error ⟨.notFound, "could not find requested document. type: Dataset"⟩
  ∧ Authz.project_id_of_object Fixtures.baseStore "o1"
        = .error ⟨.notFound, "could not find requested document. type: ObjectGroupRevision"⟩
  ∧ SpecTable.resolutionObjectGroup Fixtures.baseStore "g1" = some "p1"
  ∧ SpecTable.resolutionObject Fixtures.baseStore "o1" = some "p1" := by
  refine ⟨by decide, by decide, by decide, by decide⟩

/-- C2: the claim says that in OAuth2 mode `authorize` loads the Project
identified by the **resolved owning-project id** and grants access iff that
project lists the caller with the requested Right. The code instead passes the
original resource id to `authorize_from_user_token`, which looks up the
Project by that id. On the fixture store, resolving dataset `d1` yields owning
project `p1`, whose member `u1` (authenticated via `token-1`) holds Read — so
per the claim access would be granted, and indeed the user-token check run
against `p1` succeeds — yet `authorize` on the Dataset resource fails with
`internal` because it looked up a Project with id `d1`. -/
theorem C2_oauth2_project_lookup_uses_resource_id :
    Authz.authorize Fixtures.oauthEx Fixtures.baseStore Fixtures.mdAccess
        .Dataset .Read "d1"
      = .error ⟨.internal, "could not authorize requested action"⟩
  ∧ Authz.resolve_project_id Fixtures.baseStore .Dataset "d1" = .ok "p1"
  ∧ Authz.authorize_from_user_token Fixtures.oauthEx Fixtures.baseStore "p1"
        Fixtures.mdAccess .Read
      = .ok () := by
  refine ⟨by decide, by decide, by decide⟩

/-- C3: the claim says a successful release links **every** revision in `I`
to the new DatasetVersion because each chunk of 1000 ids gets one
`update_many`. The code issues `update_field` — the adapter's `update_one` —
per chunk, so only the first store document matching the chunk's `$in` filter
is updated. Releasing `I = [r1, r2]` (one chunk) over a store holding both
revisions links `r1` only: afterwards `r2.dataset_versions` is still empty. -/
theorem C3_release_links_only_first_chunk_match :
    Option.map
        (fun pr => (pr.1.id, pr.2.revisions.map fun r => (r.id, r.dataset_versions)))
        (CreateHandler.create_datatset_version Fixtures.releaseStore
          Fixtures.releaseReq "v1" 7)
      = some ("v1", [("r1", ["v1"]), ("r2", [])])
  ∧ Fixtures.releaseReq.revision_ids = ["r1", "r2"] := by
  refine ⟨by decide, by decide⟩

/-- C4: the claim says `init_multipart(object_id)` stores the upload id into
the matched embedded Object by setting `objects.$` to the object with its
`upload_id` field set, and that StartMultipartUpload returns the object with a
non-empty `upload_id`. The code's update document assigns the **bare
upload-id string** to `objects.$` (no object document, no `$set`), and the
handler returns the object as read **before** the update, whose `upload_id`
is still empty. On the fixture store (object `o1` with empty `upload_id`,
object store returning `upload-1`) the issued positional value is the string
`upload-1`, which is not an object document, and the returned object's
`upload_id` is `""`. -/
theorem C4_multipart_init_bare_string_update :
    LoadHandler.init_multipart_upload Fixtures.baseStore (fun _ => "upload-1") "o1"
      = .ok (Fixtures.objectO, ⟨"o1", .str "upload-1"⟩)
  ∧ Fixtures.objectO.upload_id = ""
  ∧ (∀ o : DatasetObject,
      LoadHandler.MongoValue.str "upload-1" ≠ LoadHandler.MongoValue.objectDoc o) := by
  refine ⟨by decide, by decide, fun o h => by cases h⟩

/-- C5: appending a revision to an ObjectGroup runs a find-and-update with
`$inc revision_counter + 1` and inserts a revision whose number equals the
post-increment counter minus one (the pre-increment counter the driver
returns): a freshly created group (counter 0) gets revision 0, and a second
append on the resulting store gets the next, strictly larger number. -/
theorem C5_revision_numbering (s : Store)
    (req req2 : CreateObjectGroupRevisionRequest)
    (gid bucket ua ub : String) (fa fb : Nat → String) (ta tb : Nat)
    (g : ObjectGroup)
    (hfind : s.objectGroups.find? (fun x => x.id == gid) = some g) :
    ∃ rev s₁ rev2 s₂,
      CreateHandler.create_revision_for_group s req gid bucket ua fa ta
          = .ok (rev, s₁)
      ∧ rev.revision = g.revision_counter
      ∧ s₁.objectGroups.find? (fun x => x.id == gid)
          = some { g with revision_counter := g.revision_counter + 1 }
      ∧ rev.revision = (g.revision_counter + 1) - 1
      ∧ (g.revision_counter = 0 → rev.revision = 0)
      ∧ CreateHandler.create_revision_for_group s₁ req2 gid bucket ub fb tb
          = .ok (rev2, s₂)
      ∧ rev2.revision = rev.revision + 1 := by
  have hpg := List.find?_some hfind
  have hpf : ((fun x : ObjectGroup => x.id == gid)
      { g with revision_counter := g.revision_counter + 1 }) = true := hpg
  have hfind1 :
      (Mongo.updateOne (fun x : ObjectGroup => x.id == gid)
          (fun x => { x with revision_counter := x.revision_counter + 1 })
          s.objectGroups).find? (fun x => x.id == gid)
        = some { g with revision_counter := g.revision_counter + 1 } :=
    find?_updateOne _ _ _ _ hfind hpf
  refine ⟨_, _, _, _, create_revision_for_group_eq s req gid bucket ua fa ta g hfind,
    rfl, hfind1,
    (by show g.revision_counter = g.revision_counter + 1 - 1; omega),
    fun h0 => by simp [ObjectGroupRevision.new_from_proto_create, h0],
    create_revision_for_group_eq _ req2 gid bucket ub fb tb _ hfind1, rfl⟩

/-- C5 witness: on the fixture store, the first append to group `g1`
(counter 0) yields revision number 0 and a second append yields 1. -/
theorem C5_revision_numbering_witness :
    ∃ rev s₁ rev2 s₂,
      CreateHandler.create_revision_for_group Fixtures.baseStore ⟨[], [], []⟩
          "g1" "testbucket" "ra" (fun _ => "oa") 1 = .ok (rev, s₁)
      ∧ rev.revision = Fixtures.groupG.revision_counter
      ∧ s₁.objectGroups.find? (fun x => x.id == "g1")
          = some { Fixtures.groupG with
                    revision_counter := Fixtures.groupG.revision_counter + 1 }
      ∧ rev.revision = (Fixtures.groupG.revision_counter + 1) - 1
      ∧ (Fixtures.groupG.revision_counter = 0 → rev.revision = 0)
      ∧ CreateHandler.create_revision_for_group s₁ ⟨[], [], []⟩ "g1" "testbucket"
          "rb" (fun _ => "ob") 2 = .ok (rev2, s₂)
      ∧ rev2.revision = rev.revision + 1 :=
  C5_revision_numbering Fixtures.baseStore ⟨[], [], []⟩ ⟨[], [], []⟩ "g1"
    "testbucket" "ra" "rb" (fun _ => "oa") (fun _ => "ob") 1 2 Fixtures.groupG
    (by decide)

/-- C6 counterexample: deleting revision `r1`, which is referenced by dataset
version `v1`, is rejected with invalid-argument and deletes no blob, but the
store does change: the revision's status is set to `Deleting` before the
emptiness check runs, so "no state change occurs" is false. -/
theorem C6_delete_marks_before_check :
    (DeleteHandler.delete_object_revision Fixtures.releasedStore "r1").result
        = .error ⟨.invalidArgument,
            "object group revision could not be deleted, still has associated versions"⟩
  ∧ (DeleteHandler.delete_object_revision Fixtures.releasedStore "r1").deletedBlobs = []
  ∧ (DeleteHandler.delete_object_revision Fixtures.releasedStore "r1").store.revisions
        = [{ Fixtures.revisionReleased with status := Status.Deleting }]
  ∧ (DeleteHandler.delete_object_revision Fixtures.releasedStore "r1").store
        ≠ Fixtures.releasedStore := by
  refine ⟨by decide, by decide, by decide, by decide⟩

/-- C6 (amended): deleting an ObjectGroupRevision whose `dataset_versions` is
non-empty is rejected with invalid-argument, none of its blobs are deleted and
the revision is not removed — but the `Deleting` status marker is written
before the emptiness check, so the surviving revision's status is `Deleting`
rather than unchanged. -/
theorem C6_delete_released_revision_rejected (s : Store) (id : String)
    (rev : ObjectGroupRevision)
    (hfind : s.revisions.find? (fun r => r.id == id) = some rev)
    (hvers : rev.dataset_versions ≠ []) :
    (DeleteHandler.delete_object_revision s id).result
        = .error ⟨.invalidArgument,
            "object group revision could not be deleted, still has associated versions"⟩
  ∧ (DeleteHandler.delete_object_revision s id).deletedBlobs = []
  ∧ (DeleteHandler.delete_object_revision s id).store.revisions.find?
        (fun r => r.id == id) = some { rev with status := Status.Deleting }
  ∧ (DeleteHandler.delete_object_revision s id).store.revisions.length
        = s.revisions.length := by
  have hpr := List.find?_some hfind
  have hpf : ((fun r : ObjectGroupRevision => r.id == id)
      { rev with status := Status.Deleting }) = true := hpr
  have hfind1 :
      (Mongo.updateOne (fun r : ObjectGroupRevision => r.id == id)
          (fun r => { r with status := Status.Deleting }) s.revisions).find?
          (fun r => r.id == id)
        = some { rev with status := Status.Deleting } :=
    find?_updateOne _ _ _ _ hfind hpf
  have hlen : rev.dataset_versions.length ≠ 0 := by
    simpa [List.length_eq_zero] using hvers
  unfold DeleteHandler.delete_object_revision DeleteHandler.update_status_revision
    MongoHandler.find_one_by_key Mongo.findOne?
  simp only [hfind1]
  simp [hlen, length_updateOne, hfind1]

/-- C6 witness: the amended statement at the released fixture revision. -/
theorem C6_delete_released_revision_rejected_witness :
    (DeleteHandler.delete_object_revision Fixtures.releasedStore "r1").result
        = .error ⟨.invalidArgument,
            "object group revision could not be deleted, still has associated versions"⟩
  ∧ (DeleteHandler.delete_object_revision Fixtures.releasedStore "r1").deletedBlobs = []
  ∧ (DeleteHandler.delete_object_revision Fixtures.releasedStore "r1").store.revisions.find?
        (fun r => r.id == "r1")
        = some { Fixtures.revisionReleased with status := Status.Deleting }
  ∧ (DeleteHandler.delete_object_revision Fixtures.releasedStore "r1").store.revisions.length
        = Fixtures.releasedStore.revisions.length :=
  C6_delete_released_revision_rejected Fixtures.releasedStore "r1"
    Fixtures.revisionReleased (by decide) (by decide)

/-- C7 counterexample: with a well-formed metadata map, authorizing a Dataset
id that resolves to no document makes `authorize` fail with the
`unauthenticated` kind — not `internal` as the claim states. -/
theorem C7_resolution_failure_counterexample :
    Authz.authorize Fixtures.oauthEx Fixtures.baseStore Fixtures.mdAccess
        .Dataset .Read "missing"
      = .error ⟨.unauthenticated, "could not authorize requested action"⟩
  ∧ Authz.resolve_project_id Fixtures.baseStore .Dataset "missing"
      = .error ⟨.notFound, "could not find requested document. type: Dataset"⟩
  ∧ ErrKind.unauthenticated ≠ ErrKind.internal := by
  refine ⟨by decide, by decide, by decide⟩

/-- C7 (amended): when the resource-to-project resolution fails at any step,
`authorize` fails with the `unauthenticated` kind (not permission-denied, and
not internal): the resolution error is swallowed and replaced by a fixed
unauthenticated status. -/
theorem C7_resolution_failure_is_unauthenticated (oauth : OAuth2Endpoint)
    (s : Store) (m : MetadataMap) (resource : Resource) (right : Right)
    (id : String) (e : GStatus)
    (h : Authz.resolve_project_id s resource id = .error e) :
    Authz.authorize oauth s m resource right id
      = .error ⟨.unauthenticated, "could not authorize requested action"⟩ := by
  unfold Authz.authorize
  rw [h]

/-- C7 witness: the amended statement at a Dataset id absent from the store. -/
theorem C7_resolution_failure_is_unauthenticated_witness :
    Authz.authorize Fixtures.oauthEx Fixtures.baseStore Fixtures.mdAccess
        .Dataset .Read "nope"
      = .error ⟨.unauthenticated, "could not authorize requested action"⟩ :=
  C7_resolution_failure_is_unauthenticated Fixtures.oauthEx Fixtures.baseStore
    Fixtures.mdAccess .Dataset .Read "nope"
    ⟨.notFound, "could not find requested document. type: Dataset"⟩ (by decide)

/-- C8: when both the `AccessToken` and `API_TOKEN` metadata entries are
present, authentication and authorization take the user-token (OAuth2) path —
`authorize` runs `authorize_from_user_token` and behaves exactly as if the
`API_TOKEN` entry were absent, and `user_id` comes from the access token —
and when neither entry is present, both `authorize` and `user_id` fail with
`unauthenticated`. -/
theorem C8_token_precedence (oauth : OAuth2Endpoint) (s : Store)
    (resource : Resource) (right : Right) (id atk apk pid : String)
    (h : Authz.resolve_project_id s resource id = .ok pid) :
    Authz.authorize oauth s ⟨some atk, some apk⟩ resource right id
        = Authz.authorize_from_user_token oauth s id ⟨some atk, some apk⟩ right
  ∧ Authz.authorize oauth s ⟨some atk, some apk⟩ resource right id
        = Authz.authorize oauth s ⟨some atk, none⟩ resource right id
  ∧ Authz.user_id oauth s ⟨some atk, some apk⟩
        = Authz.user_id_from_access_token oauth ⟨some atk, some apk⟩
  ∧ Authz.authorize oauth s ⟨none, none⟩ resource right id
        = .error ⟨.unauthenticated, Authz.noTokenMsg⟩
  ∧ Authz.user_id oauth s ⟨none, none⟩
        = .error ⟨.unauthenticated, Authz.noTokenMsg⟩ := by
  refine ⟨?_, ?_, rfl, ?_, rfl⟩
  · unfold Authz.authorize
    rw [h]
    rfl
  · unfold Authz.authorize
    rw [h]
    simp only [Option.isSome_some, if_true]
    unfold Authz.authorize_from_user_token
    cases MongoHandler.find_one_by_key "project" (fun p => p.id == id) s.projects with
    | error e => rfl
    | ok project => rfl
  · unfold Authz.authorize
    rw [h]
    rfl

/-- C8 witness: the statement at the fixture store with dataset `d1`. -/
theorem C8_token_precedence_witness :
    Authz.authorize Fixtures.oauthEx Fixtures.baseStore ⟨some "token-1", some "apitok"⟩
        .Dataset .Read "d1"
        = Authz.authorize_from_user_token Fixtures.oauthEx Fixtures.baseStore "d1"
            ⟨some "token-1", some "apitok"⟩ .Read
  ∧ Authz.authorize Fixtures.oauthEx Fixtures.baseStore ⟨some "token-1", some "apitok"⟩
        .Dataset .Read "d1"
        = Authz.authorize Fixtures.oauthEx Fixtures.baseStore ⟨some "token-1", none⟩
            .Dataset .Read "d1"
  ∧ Authz.user_id Fixtures.oauthEx Fixtures.baseStore ⟨some "token-1", some "apitok"⟩
        = Authz.user_id_from_access_token Fixtures.oauthEx ⟨some "token-1", some "apitok"⟩
  ∧ Authz.authorize Fixtures.oauthEx Fixtures.baseStore ⟨none, none⟩ .Dataset .Read "d1"
        = .error ⟨.unauthenticated, Authz.noTokenMsg⟩
  ∧ Authz.user_id Fixtures.oauthEx Fixtures.baseStore ⟨none, none⟩
        = .error ⟨.unauthenticated, Authz.noTokenMsg⟩ :=
  C8_token_precedence Fixtures.oauthEx Fixtures.baseStore .Dataset .Read "d1"
    "token-1" "apitok" "p1" (by decide)

/-- C9 counterexample: find-and-update with `$inc` over a one-group collection
returns the **pre-update** entity (counter still 0) while the stored document
has counter 1, and over the empty collection it fails with the `internal`
kind, not not-found. -/
theorem C9_find_and_update_counterexample :
    MongoHandler.update_on_field (fun g : ObjectGroup => g.id == "g1")
        (fun g => { g with revision_counter := g.revision_counter + 1 })
        [Fixtures.groupG]
      = .ok (Fixtures.groupG, [{ Fixtures.groupG with revision_counter := 1 }])
  ∧ Fixtures.groupG.revision_counter = 0
  ∧ ({ Fixtures.groupG with revision_counter := 1 } : ObjectGroup) ≠ Fixtures.groupG
  ∧ MongoHandler.update_on_field (fun g : ObjectGroup => g.id == "g1")
        (fun g => { g with revision_counter := g.revision_counter + 1 })
        ([] : List ObjectGroup)
      = .error ⟨.internal, "could not find value during update"⟩
  ∧ ErrKind.internal ≠ ErrKind.notFound := by
  refine ⟨by decide, by decide, by decide, by decide, by decide⟩

/-- C9 (amended): the adapter's find-and-update returns the matched entity as
it was **before** the update (the update is applied to the stored collection),
and fails with the `internal` error kind — not not-found — when no document
matches. -/
theorem C9_find_and_update_pre_image {α : Type} (p : α → Bool) (f : α → α)
    (l : List α) :
    MongoHandler.update_on_field p f l
      = match l.find? p with
        | some a => .ok (a, Mongo.updateOne p f l)
        | none => .error ⟨.internal, "could not find value during update"⟩ := by
  unfold MongoHandler.update_on_field
  rw [findOneAndUpdate_eq]
  cases l.find? p with
  | none => rfl
  | some a => rfl

/-- C10: every user membership written to a Project carries exactly the
rights Read and Write regardless of caller input: `CreateProject` records the
creator with `[Write, Read]`, and `add_user` always inserts
`[Read, Write]` — the request's rights are never consulted (replacing them
changes nothing), and the project found after `add_user` is the old project
with exactly that membership `$addToSet`-ed in. -/
theorem C10_membership_rights_fixed (req : CreateProjectRequest)
    (uid uuid : String) (s : Store)
    (areq : MongoHandler.AddUserToProjectRequest) (rs : List Right)
    (p : ProjectEntry)
    (hfind : s.projects.find? (fun x => x.id == areq.project_id) = some p) :
    (ProjectEntry.new_from_proto_create req uid uuid).users
        = [{ user_id := uid, rights := [Right.Write, Right.Read] }]
  ∧ MongoHandler.add_user s areq
        = MongoHandler.add_user s { areq with rights := rs }
  ∧ (MongoHandler.add_user s areq).projects.find?
        (fun x => x.id == areq.project_id)
      = some { p with
          users := Mongo.addToSet p.users
            { user_id := areq.user_id, rights := [Right.Read, Right.Write] } } := by
  refine ⟨rfl, rfl, ?_⟩
  have hpp := List.find?_some hfind
  have hpf : ((fun x : ProjectEntry => x.id == areq.project_id)
      { p with
        users := Mongo.addToSet p.users
          { user_id := areq.user_id, rights := [Right.Read, Right.Write] } }) = true := hpp
  exact find?_updateOne _ _ _ _ hfind hpf

/-- C10 witness: the statement at the fixture store, adding `u2` with a
request carrying only the Write right, which is ignored. -/
theorem C10_membership_rights_fixed_witness :
    (ProjectEntry.new_from_proto_create ⟨"n", "", [], []⟩ "u9" "p9").users
        = [{ user_id := "u9", rights := [Right.Write, Right.Read] }]
  ∧ MongoHandler.add_user Fixtures.baseStore ⟨"u2", "p1", [Right.Write]⟩
        = MongoHandler.add_user Fixtures.baseStore
            { (⟨"u2", "p1", [Right.Write]⟩ : MongoHandler.AddUserToProjectRequest)
              with rights := [Right.Write] }
  ∧ (MongoHandler.add_user Fixtures.baseStore ⟨"u2", "p1", [Right.Write]⟩).projects.find?
        (fun x => x.id == "p1")
      = some { Fixtures.projectP with
          users := Mongo.addToSet Fixtures.projectP.users
            { user_id := "u2", rights := [Right.Read, Right.Write] } } :=
  C10_membership_rights_fixed ⟨"n", "", [], []⟩ "u9" "p9" Fixtures.baseStore
    ⟨"u2", "p1", [Right.Write]⟩ [Right.Write] Fixtures.projectP (by decide)

end Core
